import Mathlib

/-!
Verification development for the finance-app repository (a Flask/SQLAlchemy
personal finance tracker).  The Python sources (`app.py`, `utils.py`,
`models.py`, `routes/*.py`) are shallowly embedded here:

* database rows become Lean structures (`Transaction`, `Category`, `Account`,
  `ScoreRule`, `Goal`) and the database state a record of row lists (`DB`);
* SQL queries become list filters/maps; monetary amounts become `Rat`
  (the intended real-number semantics of the Python floats);
* datetimes are abstracted to a linear day index (`Nat`); a month window
  `[start, next_month)` becomes a half-open interval `[lo, hi)` of day
  indices, so `hi - lo` is the number of calendar days in the month;
* Python string manipulation (`strip`, `lower`, `replace`, `float(...)`)
  is re-implemented structurally over `List Char` so that all definitions
  are executable and kernel-reducible.
-/

namespace FinApp

/-! ## Python string primitives -/

/-- Whitespace test used by `str.strip()` (ASCII whitespace). -/
def isWs (c : Char) : Bool := c == ' ' || c == '\t' || c == '\n' || c == '\r'

/-- Char-list core of Python `str.strip()`. -/
def stripChars (l : List Char) : List Char :=
  ((l.dropWhile isWs).reverse.dropWhile isWs).reverse

/-- Python `str.strip()`. -/
def pyStrip (s : String) : String := ⟨stripChars s.data⟩

/-- ASCII lower-casing of one character; characters outside `A`-`Z` (including
the accented characters appearing in this repository, which are already
lower-case) are unchanged, as in Python `str.lower()` on these inputs. -/
def asciiLower (c : Char) : Char :=
  if 'A' ≤ c && c ≤ 'Z' then Char.ofNat (c.toNat + 32) else c

/-- Python `str.lower()`. -/
def pyLower (s : String) : String := ⟨s.data.map asciiLower⟩

/-- Python `str.replace(c, "")` for a one-character pattern. -/
def removeChar (c : Char) (s : String) : String :=
  ⟨s.data.filter (fun x => !(x == c))⟩

/-- Python `str.replace(c, d)` for one-character pattern and replacement. -/
def swapChar (c d : Char) (s : String) : String :=
  ⟨s.data.map (fun x => if x == c then d else x)⟩

/-- Python `c in s`. -/
def containsChar (c : Char) (s : String) : Bool := s.data.any (fun x => x == c)

/-- Python falsiness of a string (`not s`). -/
def pyIsEmpty (s : String) : Bool := s.data.isEmpty

/-- Decimal digit test. -/
def isDigitChar (c : Char) : Bool := '0' ≤ c && c ≤ '9'

/-- Numeric value of a digit string (most significant first). -/
def natOfDigits (l : List Char) : Nat :=
  l.foldl (fun a c => a * 10 + (c.toNat - 48)) 0

/-- Split a character list at the first `'.'`:
`(integer part, none)` when there is no dot, otherwise
`(integer part, some fractional part)`. -/
def splitOnDot (l : List Char) : List Char × Option (List Char) :=
  let ip := l.takeWhile (fun c => !(c == '.'))
  match l.dropWhile (fun c => !(c == '.')) with
  | [] => (ip, none)
  | _ :: fp => (ip, some fp)

/-- The syntactic part of Python `float(s)` on plain decimal literals:
optional sign, digits, optional single dot; the result is
`(negative?, integer digits, fractional digits, fraction length)`.
Exotic accepted forms of CPython (`"inf"`, exponents) are outside the
inputs this program feeds to `float` after its own normalisation and are
mapped to `none` (an error). -/
def pyFloatParts (s : String) : Option (Bool × Nat × Nat × Nat) :=
  let (neg, body) :=
    match s.data with
    | '-' :: rest => (true, rest)
    | '+' :: rest => (false, rest)
    | l => (false, l)
  match splitOnDot body with
  | (ip, none) =>
      if !ip.isEmpty && ip.all isDigitChar then
        some (neg, natOfDigits ip, 0, 0)
      else none
  | (ip, some fp) =>
      if (!ip.isEmpty || !fp.isEmpty) && ip.all isDigitChar && fp.all isDigitChar then
        some (neg, natOfDigits ip, natOfDigits fp, fp.length)
      else none

/-- The numeric value of a parsed decimal literal. -/
def ratOfParts (p : Bool × Nat × Nat × Nat) : Rat :=
  (if p.1 then -1 else 1) * ((p.2.1 : Rat) + (p.2.2.1 : Rat) / (10 : Rat) ^ p.2.2.2)

/-- Python `float(s)` on plain decimal literals. -/
def pyFloat (s : String) : Option Rat := (pyFloatParts s).map ratOfParts

/-! ## The locale-flexible numeric parser (three copies in the source)

`safe_float_br` is defined in `utils.py`, and again verbatim in `app.py`;
`routes/transactions.py` carries a third copy that first rejects `None`.
An error (`ValueError` from the explicit `raise` or from `float`) is
modelled as `none`. -/

/-- The sequence of reassignments at the heart of every `safe_float_br`
copy: remove blanks, then if both a comma and a dot occur, drop the dots
(thousands separators) and turn the comma into the decimal dot, otherwise
just turn a possible comma into the decimal dot. -/
def normalize_numeric (s : String) : String :=
  let s := removeChar ' ' s
  if containsChar ',' s && containsChar '.' s then
    swapChar ',' '.' (removeChar '.' s)
  else
    swapChar ',' '.' s

/-- `utils.safe_float_br` (utils.py lines 38-47). -/
def safe_float_br (value : String) : Option Rat :=
  let s := pyStrip value
  if pyIsEmpty s then none
  else pyFloat (normalize_numeric s)

/-- The `app.py` copy of `safe_float_br` (app.py lines 68-78); its body is
textually identical to the `utils.py` copy. -/
def safe_float_br_app (value : String) : Option Rat :=
  let s := pyStrip value
  if pyIsEmpty s then none
  else pyFloat (normalize_numeric s)

/-- The `routes/transactions.py` copy of `safe_float_br` (lines 17-32):
it first raises on `None` (`value` there can be `request.form.get(...)`),
then proceeds exactly like the other two copies. -/
def safe_float_br_routes (value : Option String) : Option Rat :=
  match value with
  | none => none
  | some v =>
    let s := pyStrip v
    if pyIsEmpty s then none
    else pyFloat (normalize_numeric s)

/-! ## Data model (models.py) -/

/-- `models.Transaction`: `type` is the raw string column holding
`"entrada"` (credit) or `"saida"` (debit); `date` is the abstracted day
index; `amount` a rational. -/
structure Transaction where
  id : Nat
  user_id : Nat
  description : String
  amount : Rat
  type : String
  date : Nat
  category_id : Option Nat
  account_id : Option Nat
deriving DecidableEq

/-- `models.Category`. -/
structure Category where
  id : Nat
  user_id : Nat
  name : String
deriving DecidableEq

/-- `models.Account`. -/
structure Account where
  id : Nat
  user_id : Nat
  name : String
  type : String
deriving DecidableEq

/-- `models.ScoreRule`. -/
structure ScoreRule where
  id : Nat
  user_id : Nat
  category_id : Nat
  monthly_limit : Rat
  warning_pct : Rat
  active : Bool
deriving DecidableEq

/-- `models.Goal`. -/
structure Goal where
  id : Nat
  user_id : Nat
  name : String
  type : String
  target_amount : Rat
  month_year : Option String
  category_id : Option Nat
deriving DecidableEq

/-- The database state: one list per table, plus the next fresh primary key
(modelling the autoincrement ids the database assigns on flush/commit). -/
structure DB where
  transactions : List Transaction
  categories : List Category
  accounts : List Account
  score_rules : List ScoreRule
  goals : List Goal
  next_id : Nat
deriving DecidableEq

/-- SQL date-window predicate `date >= start AND date < next_month`
shared by all month-scoped queries. -/
def in_month (lo hi : Nat) (t : Transaction) : Bool :=
  decide (lo ≤ t.date) && decide (t.date < hi)

/-! ## Transaction listing (app.py `list_transactions`, lines 376-428)

The query-string filters arrive pre-parsed (`request.args.get(..., type=...)`
returns `None` on absence or parse failure); Python truthiness of the id
filters (`if category_id:`) is the `!= 0` test.  `order_by(date.desc())` is
omitted: the claims about this listing are membership properties, which a
permutation does not affect.  Pagination is `db.paginate`'s offset/limit. -/

/-- The parsed filter arguments of the transaction listing. -/
structure TxFilters where
  tx_type : Option String
  category_id : Option Nat
  account_id : Option Nat
  start_date : Option Nat
  end_date : Option Nat
  min_amount : Option Rat
  max_amount : Option Rat

/-- Conjunction of the `where` clauses `list_transactions` builds up. -/
def tx_matches (uid : Nat) (f : TxFilters) (t : Transaction) : Bool :=
  t.user_id == uid
  && (match f.tx_type with
      | some ty => if ty == "entrada" || ty == "saida" then t.type == ty else true
      | none => true)
  && (match f.category_id with
      | some c => if c != 0 then t.category_id == some c else true
      | none => true)
  && (match f.account_id with
      | some a => if a != 0 then t.account_id == some a else true
      | none => true)
  && (match f.start_date with
      | some d => decide (d ≤ t.date)
      | none => true)
  && (match f.end_date with
      | some d => decide (t.date < d + 1)
      | none => true)
  && (match f.min_amount with
      | some m => decide (m ≤ t.amount)
      | none => true)
  && (match f.max_amount with
      | some m => decide (t.amount ≤ m)
      | none => true)

/-- `app.list_transactions`: owner-scoped filtered query, then one page. -/
def list_transactions (uid : Nat) (f : TxFilters) (page per_page : Nat) (db : DB) :
    List Transaction :=
  ((db.transactions.filter (tx_matches uid f)).drop ((page - 1) * per_page)).take per_page

/-- `app.list_categories` query (`Category.query.filter_by(user_id=uid)`,
ordering by name omitted: membership property). -/
def list_categories (uid : Nat) (db : DB) : List Category :=
  db.categories.filter (fun c => c.user_id == uid)

/-- `app.list_accounts` query (`Account.query.filter_by(user_id=uid)`). -/
def list_accounts (uid : Nat) (db : DB) : List Account :=
  db.accounts.filter (fun a => a.user_id == uid)

/-! ## Score listing (routes/score.py `list_score`, lines 30-128) -/

/-- One entry of the `items` list built by `list_score`. -/
structure ScoreItem where
  rule : ScoreRule
  category : Category
  limit : Rat
  spent : Rat
  pct : Rat
  status : String
  remaining : Rat
deriving DecidableEq

/-- The per-category month expense `spent_map` lookup of `list_score`:
the grouped sum over `type == "saida"` transactions of the owner inside the
month window, keyed by `category_id`, defaulting to `0`. -/
def category_month_spent (uid : Nat) (txs : List Transaction) (lo hi : Nat) (cid : Nat) : Rat :=
  ((txs.filter (fun t =>
      t.user_id == uid && t.type == "saida" && in_month lo hi t
        && t.category_id == some cid)).map (fun t => t.amount)).sum

/-- The loop body of `list_score` (lines 78-104): ratio, traffic-light
status (`"red"` = over-limit, `"yellow"` = warning, `"green"` = ok) and
remaining budget. -/
def mk_score_item (spent : Rat) (r : ScoreRule) (cat : Category) : ScoreItem :=
  let limit := r.monthly_limit
  let warn_pct := r.warning_pct
  let pct := if limit > 0 then spent / limit else 0
  let status :=
    if pct > 1 then "red"
    else if warn_pct ≤ pct then "yellow"
    else "green"
  { rule := r, category := cat, limit := limit, spent := spent, pct := pct,
    status := status, remaining := limit - spent }

/-- `score.list_score`: the active rules of the caller joined with
categories on `Category.id == ScoreRule.category_id` (note: the join does
not constrain `Category.user_id`), each paired with its computed item.
`order_by(Category.name)` omitted (membership property). -/
def list_score (uid : Nat) (db : DB) (lo hi : Nat) : List ScoreItem :=
  (db.score_rules.filter (fun r => r.user_id == uid && r.active)).flatMap (fun r =>
    (db.categories.filter (fun c => c.id == r.category_id)).map (fun cat =>
      mk_score_item (category_month_spent uid db.transactions lo hi cat.id) r cat))

/-! ## Dashboard aggregation (app.py `index`, lines 216-371; identical logic
in routes/dashboard.py `index`) -/

/-- The month transaction query feeding the daily line chart
(`tx_month`, app.py lines 285-293). -/
def tx_month (uid : Nat) (txs : List Transaction) (lo hi : Nat) : List Transaction :=
  txs.filter (fun t => t.user_id == uid && in_month lo hi t)

/-- The conditional month sums `total_entradas_mes` / `total_saidas_mes`
(parametrised by the `type` value). -/
def month_total (uid : Nat) (ty : String) (txs : List Transaction) (lo hi : Nat) : Rat :=
  ((txs.filter (fun t => t.user_id == uid && t.type == ty && in_month lo hi t)).map
    (fun t => t.amount)).sum

/-- The signed contribution of one transaction to the daily delta
(`sign = 1 if tx.type == "entrada" else -1`). -/
def signed_amount (t : Transaction) : Rat :=
  (if t.type == "entrada" then 1 else -1) * t.amount

/-- `daily_delta` for one day: the summed signed amounts of the month
transactions falling on that day (absent key defaults to `0.0`). -/
def daily_delta (txs : List Transaction) (d : Nat) : Rat :=
  ((txs.filter (fun t => t.date == d)).map signed_amount).sum

/-- The `while day < next_month` accumulation loop building
`line_chart_data`: starting at day `d` with `n` days left and running
balance `running`. -/
def line_chart_aux (txs : List Transaction) : Nat → Nat → Rat → List (Nat × Rat)
  | _, 0, _ => []
  | d, n + 1, running =>
      (d, running + daily_delta txs d) ::
        line_chart_aux txs (d + 1) n (running + daily_delta txs d)

/-- `line_chart_data`: one `(day, saldo)` entry per calendar day of the
month window `[lo, hi)`, cumulative from `0.0`. -/
def line_chart (txs : List Transaction) (lo hi : Nat) : List (Nat × Rat) :=
  line_chart_aux txs lo (hi - lo) 0

/-! ## Goal progress (app.py lines 316-358) -/

/-- One entry of `goals_progress` (the displayed dict; the source
additionally rounds `percent` to one decimal for display). -/
structure GoalProgress where
  name : String
  type : String
  target : Rat
  current : Rat
  percent : Rat
deriving DecidableEq

/-- Python truthiness of `g.category_id` in
`elif g.type == "categoria" and g.category_id:`. -/
def goal_cat_truthy (g : Goal) : Bool :=
  match g.category_id with
  | some c => c != 0
  | none => false

/-- `current_value` per goal kind (app.py lines 327-344). -/
def goal_current (uid : Nat) (txs : List Transaction) (lo hi : Nat)
    (entradas_mes saidas_mes : Rat) (g : Goal) : Rat :=
  if g.type == "gasto_mensal" then saidas_mes
  else if g.type == "economia" then entradas_mes - saidas_mes
  else if g.type == "categoria" && goal_cat_truthy g then
    ((txs.filter (fun t =>
        t.user_id == uid && t.type == "saida" && t.category_id == g.category_id
          && in_month lo hi t)).map (fun t => t.amount)).sum
  else 0

/-- The loop body of the goal evaluation (app.py lines 326-358): one
`goals_progress` entry, with
`percent = min(100, current/target*100) if target > 0 else 0`
(`target_amount or 0.0` leaves the value unchanged since `0.0 or 0.0 = 0.0`;
the one-decimal display rounding is not modelled). -/
def mk_goal_progress (uid : Nat) (txs : List Transaction) (lo hi : Nat)
    (entradas_mes saidas_mes : Rat) (g : Goal) : GoalProgress :=
  let current := goal_current uid txs lo hi entradas_mes saidas_mes g
  let target := g.target_amount
  let percent := if target > 0 then min 100 (current / target * 100) else 0
  { name := g.name, type := g.type, target := target, current := current,
    percent := percent }

/-- The `goals_progress` list of the dashboard: goals of the caller whose
`month_year` matches the current month or is unset, each evaluated by
`mk_goal_progress` against the month totals. -/
def goals_progress (uid : Nat) (db : DB) (lo hi : Nat) (month_year : String) :
    List GoalProgress :=
  (db.goals.filter (fun g =>
      g.user_id == uid && (g.month_year == some month_year || g.month_year == none))).map
    (mk_goal_progress uid db.transactions lo hi
      (month_total uid "entrada" db.transactions lo hi)
      (month_total uid "saida" db.transactions lo hi))

/-! ## CSV import (app.py `import_transactions`, lines 654-762)

A parsed CSV is a header list plus rows.  A row is modelled post
field-lookup (the values the case-insensitive `get(row, key)` helper
extracts for the six recognised column names, empty string when absent).
The abstract day index makes `strftime`/`strptime` a decimal `Nat`
encoding. -/

/-- One CSV data row, by recognised column. -/
structure CsvRow where
  data : String
  descricao : String
  tipo : String
  valor : String
  categoria : String
  conta : String
deriving DecidableEq

/-- `datetime.strptime(data, "%Y-%m-%d")` under the day-index abstraction:
parse the decimal day index, error (`none`) otherwise. -/
def parse_date_ymd (s : String) : Option Nat :=
  if !s.data.isEmpty && s.data.all isDigitChar then some (natOfDigits s.data) else none

/-- `headers_lower`: the stripped, lower-cased header names. -/
def headers_norm (headers : List String) : List String :=
  headers.map (fun h => pyLower (pyStrip h))

/-- The `required` column names of the import (app.py line 687). -/
def required_columns : List String := ["data", "descricao", "tipo", "valor"]

/-- The header check (app.py line 688):
`all(any(h == r for h in headers_lower) for r in required)`. -/
def header_ok (headers : List String) : Bool :=
  required_columns.all (fun r => (headers_norm headers).any (fun h => h == r))

/-- State threaded through the import loop: the session's pending database
plus the imported/skipped counters. -/
structure ImportState where
  db : DB
  imported : Nat
  skipped : Nat
deriving DecidableEq

/-- `Category.query.filter_by(user_id=uid, name=name).first()` plus the
auto-create-and-flush branch. -/
def find_or_create_category (uid : Nat) (db : DB) (name : String) : DB × Nat :=
  match db.categories.find? (fun c => c.user_id == uid && c.name == name) with
  | some c => (db, c.id)
  | none =>
      let cid := db.next_id
      ({ db with
          categories := db.categories ++ [{ id := cid, user_id := uid, name := name }],
          next_id := db.next_id + 1 }, cid)

/-- Same for accounts; an auto-created account gets `type="banco"`. -/
def find_or_create_account (uid : Nat) (db : DB) (name : String) : DB × Nat :=
  match db.accounts.find? (fun a => a.user_id == uid && a.name == name) with
  | some a => (db, a.id)
  | none =>
      let aid := db.next_id
      ({ db with
          accounts := db.accounts ++
            [{ id := aid, user_id := uid, name := name, type := "banco" }],
          next_id := db.next_id + 1 }, aid)

/-- One iteration of the import loop (app.py lines 699-749): any raised
error (empty description, bad type, unparsable amount, bad date) skips the
row; otherwise category/account are resolved or auto-created and the
transaction is added. -/
def import_row (uid : Nat) (st : ImportState) (r : CsvRow) : ImportState :=
  let descricao := pyStrip r.descricao
  let tipo := pyLower (pyStrip r.tipo)
  let valor := pyStrip r.valor
  let data := pyStrip r.data
  let cat_name := pyStrip r.categoria
  let acc_name := pyStrip r.conta
  if pyIsEmpty descricao then { st with skipped := st.skipped + 1 }
  else if !(tipo == "entrada" || tipo == "saida") then { st with skipped := st.skipped + 1 }
  else
    match safe_float_br valor with
    | none => { st with skipped := st.skipped + 1 }
    | some amount =>
      match parse_date_ymd data with
      | none => { st with skipped := st.skipped + 1 }
      | some tx_date =>
        let (db1, cat_id) :=
          if pyIsEmpty cat_name then (st.db, none)
          else
            let (d, c) := find_or_create_category uid st.db cat_name
            (d, some c)
        let (db2, acc_id) :=
          if pyIsEmpty acc_name then (db1, none)
          else
            let (d, a) := find_or_create_account uid db1 acc_name
            (d, some a)
        let tx : Transaction :=
          { id := db2.next_id, user_id := uid, description := descricao,
            amount := amount, type := tipo, date := tx_date,
            category_id := cat_id, account_id := acc_id }
        let db3 :=
          { db2 with
              transactions := db2.transactions ++ [tx]
              next_id := db2.next_id + 1 }
        { db := db3, imported := st.imported + 1, skipped := st.skipped }

/-- The whole row loop. -/
def import_rows (uid : Nat) (st : ImportState) (rows : List CsvRow) : ImportState :=
  rows.foldl (import_row uid) st

/-- `app.import_transactions` on a parsed file: result is the committed
database, the imported and skipped counts, and whether the request ended in
the error flash.  A failed header check (line 688) redirects with the
error flash before any row is touched, leaving the database unchanged. -/
def import_transactions (uid : Nat) (db : DB) (headers : List String) (rows : List CsvRow) :
    DB × Nat × Nat × Bool :=
  if header_ok headers then
    let st := import_rows uid { db := db, imported := 0, skipped := 0 } rows
    (st.db, st.imported, st.skipped, false)
  else
    (db, 0, 0, true)

/-! ## CSV export (app.py `export_csv`, lines 769-808) -/

/-- `tx.category.name if tx.category else ""`. -/
def category_name_of (db : DB) (cid : Option Nat) : String :=
  match cid with
  | none => ""
  | some c =>
    match db.categories.find? (fun k => k.id == c) with
    | some k => k.name
    | none => ""

/-- `tx.account.name if tx.account else ""`. -/
def account_name_of (db : DB) (aid : Option Nat) : String :=
  match aid with
  | none => ""
  | some a =>
    match db.accounts.find? (fun k => k.id == a) with
    | some k => k.name
    | none => ""

/-- `tx.date.strftime("%Y-%m-%d")` under the day-index abstraction. -/
def format_date (d : Nat) : String := toString d

/-- The f-string `f"{tx.amount:.2f}"`: two-decimal fixed-point rendering
(round to nearest cent). -/
def format_amount (x : Rat) : String :=
  let cents : Int := Int.floor (x * 100 + 1 / 2)
  let sign := if cents < 0 then "-" else ""
  let a := cents.natAbs
  let r := a % 100
  sign ++ toString (a / 100) ++ "." ++ (if r < 10 then "0" ++ toString r else toString r)

/-- `app.export_csv`: the written header row and one data row per
transaction of the caller in the month window, in the fixed column order
`Data;Descrição;Tipo;Categoria;Conta;Valor` (ascending date order omitted:
the round-trip claim is about the set of rows). -/
def export_csv (uid : Nat) (db : DB) (lo hi : Nat) : List String × List (List String) :=
  let txs := db.transactions.filter (fun t => t.user_id == uid && in_month lo hi t)
  (["Data", "Descrição", "Tipo", "Categoria", "Conta", "Valor"],
   txs.map (fun t =>
     [format_date t.date, t.description, t.type,
      category_name_of db t.category_id, account_name_of db t.account_id,
      format_amount t.amount]))

/-- Re-reading an exported data row through a `DictReader` keyed by the
export header: positional mapping in the export column order. -/
def row_of_exported (l : List String) : CsvRow :=
  { data := l.getD 0 "", descricao := l.getD 1 "", tipo := l.getD 2 "",
    categoria := l.getD 3 "", conta := l.getD 4 "", valor := l.getD 5 "" }

/-- The claim's notion of "the header lacks a required column", matched
case-insensitively against the accepted Portuguese/English names: some
required column matches no header under either name. -/
def lacks_required (headers : List String) : Bool :=
  ((headers_norm headers).all (fun h => !(h == "data") && !(h == "date")))
  || ((headers_norm headers).all (fun h => !(h == "descricao") && !(h == "description")))
  || ((headers_norm headers).all (fun h => !(h == "tipo") && !(h == "type")))
  || ((headers_norm headers).all (fun h => !(h == "valor") && !(h == "amount")))

/-! ## Category/account deletion (app.py lines 970-995 and 1084-1106) -/

/-- Outcome of a delete request: `notFound` is the 404 of
`get_owned_or_404`, `blocked` the "linked transactions" error flash,
`deleted` the successful commit. -/
inductive DeleteOutcome
  | notFound
  | blocked
  | deleted
deriving DecidableEq

/-- `app.delete_category`: 404 unless the row exists and is owned; blocked
when some transaction of the caller references the category; otherwise the
row (primary key `cid`) is deleted. -/
def delete_category (uid cid : Nat) (db : DB) : DeleteOutcome × DB :=
  match db.categories.find? (fun c => c.id == cid && c.user_id == uid) with
  | none => (DeleteOutcome.notFound, db)
  | some _ =>
    if db.transactions.any (fun t => t.user_id == uid && t.category_id == some cid) then
      (DeleteOutcome.blocked, db)
    else
      (DeleteOutcome.deleted,
        { db with categories := db.categories.filter (fun c => !(c.id == cid)) })

/-- `app.delete_account`, symmetric to `delete_category`. -/
def delete_account (uid aid : Nat) (db : DB) : DeleteOutcome × DB :=
  match db.accounts.find? (fun a => a.id == aid && a.user_id == uid) with
  | none => (DeleteOutcome.notFound, db)
  | some _ =>
    if db.transactions.any (fun t => t.user_id == uid && t.account_id == some aid) then
      (DeleteOutcome.blocked, db)
    else
      (DeleteOutcome.deleted,
        { db with accounts := db.accounts.filter (fun a => !(a.id == aid)) })

/-! ## Default-account seeding (utils.py `seed_defaults_for_user`,
lines 25-35; called from `routes/auth.py` `login`, line 75) -/

/-- The four default accounts. -/
def default_accounts : List (String × String) :=
  [("Carteira", "carteira"), ("Banco", "banco"), ("Cartão", "cartao"), ("Reserva", "reserva")]

/-- `seed_defaults_for_user`: only when the user owns zero accounts are the
four defaults inserted (with database-assigned fresh ids). -/
def seed_defaults_for_user (uid : Nat) (db : DB) : DB :=
  if (db.accounts.filter (fun a => a.user_id == uid)).length == 0 then
    { db with
        accounts := db.accounts ++
          (default_accounts.enum.map (fun p =>
            { id := db.next_id + p.1, user_id := uid, name := p.2.1, type := p.2.2 })),
        next_id := db.next_id + default_accounts.length }
  else db

/-! ## Concrete states used by the witnesses and counterexamples -/

/-- The empty (all-`None`) transaction-listing filter set. -/
def no_filters : TxFilters :=
  { tx_type := none, category_id := none, account_id := none,
    start_date := none, end_date := none, min_amount := none, max_amount := none }

/-- A small well-formed state for user 1: a month with one 100 credit and
one 80 debit in category 1, a score rule on category 1 with limit 100 and
warning threshold 0.80, and one monthly-spend goal with target 100. -/
def wdb : DB :=
  { transactions :=
      [{ id := 1, user_id := 1, description := "Mercado", amount := 80, type := "saida",
         date := 5, category_id := some 1, account_id := some 1 },
       { id := 2, user_id := 1, description := "Salario", amount := 100, type := "entrada",
         date := 3, category_id := none, account_id := some 1 }],
    categories :=
      [{ id := 1, user_id := 1, name := "Alimentacao" },
       { id := 2, user_id := 1, name := "Lazer" }],
    accounts := [{ id := 1, user_id := 1, name := "Banco", type := "banco" }],
    score_rules :=
      [{ id := 1, user_id := 1, category_id := 1, monthly_limit := 100,
         warning_pct := 4 / 5, active := true }],
    goals :=
      [{ id := 1, user_id := 1, name := "Gasto", type := "gasto_mensal",
         target_amount := 100, month_year := none, category_id := none }],
    next_id := 3 }

/-- The score item `list_score 1 wdb 0 31` produces for the rule of `wdb`:
80 spent of a 100 limit at a 0.80 warning threshold. -/
def item_w : ScoreItem :=
  mk_score_item (category_month_spent 1 wdb.transactions 0 31 1)
    { id := 1, user_id := 1, category_id := 1, monthly_limit := 100,
      warning_pct := 4 / 5, active := true }
    { id := 1, user_id := 1, name := "Alimentacao" }

/-- The goal of `wdb`. -/
def goal_w : Goal :=
  { id := 1, user_id := 1, name := "Gasto", type := "gasto_mensal",
    target_amount := 100, month_year := none, category_id := none }

/-- The progress entry `goals_progress 1 wdb 0 31 _` produces for `goal_w`. -/
def gp_w : GoalProgress :=
  mk_goal_progress 1 wdb.transactions 0 31
    (month_total 1 "entrada" wdb.transactions 0 31)
    (month_total 1 "saida" wdb.transactions 0 31) goal_w

/-- A state where user 1 owns an active score rule whose `category_id`
points at a category owned by user 2 (nothing in `new_rule` prevents
this: the posted `category_id` is stored without an ownership check). -/
def exdb_score : DB :=
  { transactions := [],
    categories := [{ id := 1, user_id := 2, name := "Mercado" }],
    accounts := [],
    score_rules :=
      [{ id := 1, user_id := 1, category_id := 1, monthly_limit := 100,
         warning_pct := 4 / 5, active := true }],
    goals := [], next_id := 5 }

/-- A net-savings goal with target 100, used in `exdb_goal`. -/
def goal_neg : Goal :=
  { id := 1, user_id := 1, name := "Poupar", type := "economia",
    target_amount := 100, month_year := none, category_id := none }

/-- A state where user 1 has a net-savings (`economia`) goal with target
100 in a month with no income and a 50 expense. -/
def exdb_goal : DB :=
  { transactions :=
      [{ id := 1, user_id := 1, description := "Aluguel", amount := 50, type := "saida",
         date := 10, category_id := none, account_id := none }],
    categories := [], accounts := [], score_rules := [],
    goals :=
      [{ id := 1, user_id := 1, name := "Poupar", type := "economia",
         target_amount := 100, month_year := none, category_id := none }],
    next_id := 2 }

/-- A state with one transaction in the month window `[0, 31)`, for the
CSV export/import round trip. -/
def exdb_csv : DB :=
  { transactions :=
      [{ id := 1, user_id := 1, description := "Mercado", amount := 10, type := "saida",
         date := 5, category_id := none, account_id := none }],
    categories := [], accounts := [], score_rules := [], goals := [], next_id := 2 }

/-- A state where user 1 owns one non-default account and none of the four
default accounts. -/
def exdb_seed : DB :=
  { transactions := [], categories := [],
    accounts := [{ id := 1, user_id := 1, name := "Poupanca", type := "banco" }],
    score_rules := [], goals := [], next_id := 2 }

/-! ## Helper lemmas -/

/-- Unfolding `safe_float_br` on a non-blank input. -/
theorem safe_float_br_of_nonblank (v : String) (h : pyIsEmpty (pyStrip v) = false) :
    safe_float_br v = pyFloat (normalize_numeric (pyStrip v)) := by
  simp only [safe_float_br, h, Bool.false_eq_true, if_false]

@[simp] theorem mk_score_item_rule (s : Rat) (r : ScoreRule) (c : Category) :
    (mk_score_item s r c).rule = r := rfl

@[simp] theorem mk_score_item_category (s : Rat) (r : ScoreRule) (c : Category) :
    (mk_score_item s r c).category = c := rfl

@[simp] theorem mk_score_item_limit (s : Rat) (r : ScoreRule) (c : Category) :
    (mk_score_item s r c).limit = r.monthly_limit := rfl

@[simp] theorem mk_score_item_spent (s : Rat) (r : ScoreRule) (c : Category) :
    (mk_score_item s r c).spent = s := rfl

@[simp] theorem mk_score_item_remaining (s : Rat) (r : ScoreRule) (c : Category) :
    (mk_score_item s r c).remaining = r.monthly_limit - s := rfl

theorem mk_score_item_pct (s : Rat) (r : ScoreRule) (c : Category) :
    (mk_score_item s r c).pct =
      if r.monthly_limit > 0 then s / r.monthly_limit else 0 := rfl

theorem mk_score_item_status (s : Rat) (r : ScoreRule) (c : Category) :
    (mk_score_item s r c).status =
      if (if r.monthly_limit > 0 then s / r.monthly_limit else 0) > 1 then "red"
      else if r.warning_pct ≤ (if r.monthly_limit > 0 then s / r.monthly_limit else 0) then
        "yellow"
      else "green" := rfl

@[simp] theorem mk_goal_progress_target (uid : Nat) (txs : List Transaction) (lo hi : Nat)
    (e s : Rat) (g : Goal) :
    (mk_goal_progress uid txs lo hi e s g).target = g.target_amount := rfl

@[simp] theorem mk_goal_progress_current (uid : Nat) (txs : List Transaction) (lo hi : Nat)
    (e s : Rat) (g : Goal) :
    (mk_goal_progress uid txs lo hi e s g).current = goal_current uid txs lo hi e s g := rfl

theorem mk_goal_progress_percent (uid : Nat) (txs : List Transaction) (lo hi : Nat)
    (e s : Rat) (g : Goal) :
    (mk_goal_progress uid txs lo hi e s g).percent =
      if g.target_amount > 0 then
        min 100 (goal_current uid txs lo hi e s g / g.target_amount * 100)
      else 0 := rfl

/-! ## Claims -/

/-- Claim C1 (amended): the transaction, category and account listings,
the score-rule rows themselves, and the dashboard month-transaction query
return only rows owned by the caller; the category rows joined into the
score listing are owner-matched provided every score rule of the caller
references a category of the caller (the join itself only matches
`Category.id`). -/
theorem owner_scoped_listings (uid page per_page lo hi : Nat) (f : TxFilters) (db : DB)
    (hrules : ∀ r ∈ db.score_rules, r.user_id = uid →
      ∀ c ∈ db.categories, c.id = r.category_id → c.user_id = uid) :
    (∀ t ∈ list_transactions uid f page per_page db, t.user_id = uid) ∧
    (∀ c ∈ list_categories uid db, c.user_id = uid) ∧
    (∀ a ∈ list_accounts uid db, a.user_id = uid) ∧
    (∀ it ∈ list_score uid db lo hi, it.rule.user_id = uid ∧ it.category.user_id = uid) ∧
    (∀ t ∈ tx_month uid db.transactions lo hi, t.user_id = uid) := by
  refine ⟨?_, ?_, ?_, ?_, ?_⟩
  · intro t ht
    rw [list_transactions] at ht
    have h1 : t ∈ db.transactions.filter (tx_matches uid f) :=
      List.drop_subset _ _ (List.take_subset _ _ ht)
    have h2 := (List.mem_filter.mp h1).2
    rw [tx_matches] at h2
    simp only [Bool.and_eq_true] at h2
    exact beq_iff_eq.mp h2.1.1.1.1.1.1.1
  · intro c hc
    rw [list_categories] at hc
    exact beq_iff_eq.mp (List.mem_filter.mp hc).2
  · intro a ha
    rw [list_accounts] at ha
    exact beq_iff_eq.mp (List.mem_filter.mp ha).2
  · intro it hit
    rw [list_score] at hit
    obtain ⟨r, hr, hmm⟩ := List.mem_flatMap.mp hit
    obtain ⟨cat, hcat, rfl⟩ := List.mem_map.mp hmm
    have hr2 := (List.mem_filter.mp hr).2
    simp only [Bool.and_eq_true] at hr2
    have hru : r.user_id = uid := beq_iff_eq.mp hr2.1
    have hcm := List.mem_filter.mp hcat
    have hcid : cat.id = r.category_id := beq_iff_eq.mp hcm.2
    have hcu : cat.user_id = uid :=
      hrules r (List.mem_of_mem_filter hr) hru cat hcm.1 hcid
    exact ⟨by simpa using hru, by simpa using hcu⟩
  · intro t ht
    rw [tx_month] at ht
    have h2 := (List.mem_filter.mp ht).2
    simp only [Bool.and_eq_true] at h2
    exact beq_iff_eq.mp h2.1

/-- Witness for claim C1: the hypothesis and conclusion instantiated at
the concrete state `wdb`. -/
theorem owner_scoped_listings_witness :
    (∀ r ∈ wdb.score_rules, r.user_id = 1 →
        ∀ c ∈ wdb.categories, c.id = r.category_id → c.user_id = 1) ∧
    ((∀ t ∈ list_transactions 1 no_filters 1 10 wdb, t.user_id = 1) ∧
      (∀ c ∈ list_categories 1 wdb, c.user_id = 1) ∧
      (∀ a ∈ list_accounts 1 wdb, a.user_id = 1) ∧
      (∀ it ∈ list_score 1 wdb 0 31, it.rule.user_id = 1 ∧ it.category.user_id = 1) ∧
      (∀ t ∈ tx_month 1 wdb.transactions 0 31, t.user_id = 1)) :=
  ⟨by decide, owner_scoped_listings 1 1 10 0 31 no_filters wdb (by decide)⟩

/-- Claim C4: for every item of the score listing whose rule has a
positive monthly limit, the ratio is spent/limit over the month expense of
the joined category, remaining is limit - spent, and the status is
over-limit (`"red"`) when the ratio exceeds 1, warning (`"yellow"`) when
it is at most 1 but at least the warning threshold (boundary inclusive),
and ok (`"green"`) otherwise. -/
theorem score_rule_classification (uid lo hi : Nat) (db : DB) (it : ScoreItem)
    (hmem : it ∈ list_score uid db lo hi) (hL : 0 < it.limit) :
    it.spent = category_month_spent uid db.transactions lo hi it.category.id ∧
    it.pct = it.spent / it.limit ∧
    it.remaining = it.limit - it.spent ∧
    (1 < it.pct → it.status = "red") ∧
    (it.pct ≤ 1 → it.rule.warning_pct ≤ it.pct → it.status = "yellow") ∧
    (it.pct ≤ 1 → it.pct < it.rule.warning_pct → it.status = "green") := by
  rw [list_score] at hmem
  obtain ⟨r, hr, hmm⟩ := List.mem_flatMap.mp hmem
  obtain ⟨cat, hcat, rfl⟩ := List.mem_map.mp hmm
  have hlim : (0 : Rat) < r.monthly_limit := by simpa using hL
  have hpct :
      (mk_score_item (category_month_spent uid db.transactions lo hi cat.id) r cat).pct =
        category_month_spent uid db.transactions lo hi cat.id / r.monthly_limit := by
    rw [mk_score_item_pct, if_pos hlim]
  have hst :
      (mk_score_item (category_month_spent uid db.transactions lo hi cat.id) r cat).status =
        if category_month_spent uid db.transactions lo hi cat.id / r.monthly_limit > 1 then
          "red"
        else if r.warning_pct ≤
            category_month_spent uid db.transactions lo hi cat.id / r.monthly_limit then
          "yellow"
        else "green" := by
    rw [mk_score_item_status, if_pos hlim]
  refine ⟨by simp, by simpa using hpct, by simp, ?_, ?_, ?_⟩
  · intro h
    rw [hpct] at h
    rw [hst, if_pos h]
  · intro h1 h2
    rw [hpct] at h1 h2
    rw [hst, if_neg (by exact not_lt.mpr h1), if_pos (by simpa using h2)]
  · intro h1 h2
    rw [hpct] at h1 h2
    rw [hst, if_neg (by exact not_lt.mpr h1), if_neg (by simpa using not_le.mpr h2)]

/-- Claim C2 (amended): every dashboard goal entry has percent 0 when its
target is non-positive, percent `min(100, current/target*100)` when the
target is positive, percent at most 100 always, and percent non-negative
whenever the current value is non-negative (an `economia` goal in a month
with more expense than income has a negative current value, hence a
negative percent). -/
theorem goal_percent_spec (uid lo hi : Nat) (month_year : String) (db : DB)
    (gp : GoalProgress) (hmem : gp ∈ goals_progress uid db lo hi month_year) :
    (gp.target ≤ 0 → gp.percent = 0) ∧
    (0 < gp.target → gp.percent = min 100 (gp.current / gp.target * 100)) ∧
    gp.percent ≤ 100 ∧
    (0 ≤ gp.current → 0 ≤ gp.percent) := by
  rw [goals_progress] at hmem
  obtain ⟨g, hg, rfl⟩ := List.mem_map.mp hmem
  simp only [mk_goal_progress_target, mk_goal_progress_current, mk_goal_progress_percent]
  by_cases ht : g.target_amount > 0
  · rw [if_pos ht]
    refine ⟨fun h0 => absurd ht (not_lt.mpr h0), fun _ => rfl, min_le_left _ _, fun hc => ?_⟩
    exact le_min (by norm_num) (mul_nonneg (div_nonneg hc ht.le) (by norm_num))
  · rw [if_neg ht]
    exact ⟨fun _ => rfl, fun h => absurd h ht, by norm_num, fun _ => le_refl 0⟩

/-- Claim C10: the three copies of the numeric parser `safe_float_br`
(`utils.py`, `routes/transactions.py`, `app.py`) are equivalent: on every
string input they return the same value or all fail; the routes copy
additionally fails on `None`. -/
theorem safe_float_br_copies_agree :
    ∀ value : String,
      safe_float_br_app value = safe_float_br value ∧
      safe_float_br_routes (some value) = safe_float_br value ∧
      safe_float_br_routes none = none :=
  fun _ => ⟨rfl, rfl, rfl⟩

/-- Claim C6: the locale-flexible numeric parser maps `"10,50"` and
`"10.50"` to 10.50 and `"1.234,56"` to 1234.56, and errors on the empty
and the all-whitespace string. -/
theorem numeric_parser_cases :
    safe_float_br "10,50" = some (21 / 2) ∧
    safe_float_br "10.50" = some (21 / 2) ∧
    safe_float_br "1.234,56" = some (30864 / 25) ∧
    safe_float_br "" = none ∧
    safe_float_br "   " = none := by
  refine ⟨?_, ?_, ?_, by decide, by decide⟩
  · rw [safe_float_br_of_nonblank _ (by decide),
      show normalize_numeric (pyStrip "10,50") = "10.50" from by decide,
      pyFloat, show pyFloatParts "10.50" = some (false, 10, 50, 2) from by decide]
    simp only [Option.map_some', ratOfParts, Option.some.injEq]
    norm_num
  · rw [safe_float_br_of_nonblank _ (by decide),
      show normalize_numeric (pyStrip "10.50") = "10.50" from by decide,
      pyFloat, show pyFloatParts "10.50" = some (false, 10, 50, 2) from by decide]
    simp only [Option.map_some', ratOfParts, Option.some.injEq]
    norm_num
  · rw [safe_float_br_of_nonblank _ (by decide),
      show normalize_numeric (pyStrip "1.234,56") = "1234.56" from by decide,
      pyFloat, show pyFloatParts "1234.56" = some (false, 1234, 56, 2) from by decide]
    simp only [Option.map_some', ratOfParts, Option.some.injEq]
    norm_num

/-- Claim C3 (code bug): exporting the month of `exdb_csv` produces one
data row, but re-importing the produced file is rejected outright: the
export header writes `Descrição` (accented), while the import's required
column check looks for `descricao`, so the header check fails, nothing is
inserted and the error flash is raised — the round trip reproduces nothing
instead of the same set of transactions. -/
theorem csv_round_trip_rejected :
    (export_csv 1 exdb_csv 0 31).2.length = 1 ∧
    header_ok (export_csv 1 exdb_csv 0 31).1 = false ∧
    import_transactions 1 exdb_csv (export_csv 1 exdb_csv 0 31).1
        ((export_csv 1 exdb_csv 0 31).2.map row_of_exported) =
      (exdb_csv, 0, 0, true) := by
  refine ⟨by decide, by decide, ?_⟩
  have h : header_ok (export_csv 1 exdb_csv 0 31).1 = false := by decide
  simp only [import_transactions, h, Bool.false_eq_true, if_false]

/-- Witness for claim C2: the dashboard of `wdb` evaluates its
monthly-spend goal (target 100, month expense 80) to percent 80. -/
theorem goal_percent_spec_witness :
    gp_w ∈ goals_progress 1 wdb 0 31 "2025-01" ∧
    gp_w.percent = 80 ∧
    ((gp_w.target ≤ 0 → gp_w.percent = 0) ∧
      (0 < gp_w.target → gp_w.percent = min 100 (gp_w.current / gp_w.target * 100)) ∧
      gp_w.percent ≤ 100 ∧
      (0 ≤ gp_w.current → 0 ≤ gp_w.percent)) := by
  have hfilter : wdb.goals.filter (fun g =>
      g.user_id == 1 && (g.month_year == some "2025-01" || g.month_year == none)) =
      [goal_w] := by decide
  have hmem : gp_w ∈ goals_progress 1 wdb 0 31 "2025-01" := by
    rw [goals_progress, hfilter, List.map_cons, List.map_nil]
    exact List.mem_singleton.mpr rfl
  refine ⟨hmem, ?_, goal_percent_spec 1 0 31 "2025-01" wdb gp_w hmem⟩
  have hs : month_total 1 "saida" wdb.transactions 0 31 = 80 := by
    simp +decide [month_total, wdb, in_month]
  have hcur : goal_current 1 wdb.transactions 0 31
      (month_total 1 "entrada" wdb.transactions 0 31)
      (month_total 1 "saida" wdb.transactions 0 31) goal_w = 80 := by
    rw [goal_current, if_pos (show (goal_w.type == "gasto_mensal") = true from by decide)]
    exact hs
  rw [show gp_w = mk_goal_progress 1 wdb.transactions 0 31
      (month_total 1 "entrada" wdb.transactions 0 31)
      (month_total 1 "saida" wdb.transactions 0 31) goal_w from rfl,
    mk_goal_progress_percent, hcur]
  norm_num [goal_w, min_def]

/-- Counterexample to claim C2 as stated: in `exdb_goal` the net-savings
goal has current value -50 (no income, 50 expense), so its percent is -50,
outside `[0, 100]`. -/
theorem goal_percent_negative_on_dashboard :
    ∃ gp ∈ goals_progress 1 exdb_goal 0 31 "2025-01", gp.percent < 0 := by
  have hfilter : exdb_goal.goals.filter (fun g =>
      g.user_id == 1 && (g.month_year == some "2025-01" || g.month_year == none)) =
      [goal_neg] := by decide
  refine ⟨mk_goal_progress 1 exdb_goal.transactions 0 31
      (month_total 1 "entrada" exdb_goal.transactions 0 31)
      (month_total 1 "saida" exdb_goal.transactions 0 31) goal_neg, ?_, ?_⟩
  · rw [goals_progress, hfilter, List.map_cons, List.map_nil]
    exact List.mem_singleton.mpr rfl
  · have he : month_total 1 "entrada" exdb_goal.transactions 0 31 = 0 := by
      simp +decide [month_total, exdb_goal, in_month]
    have hs : month_total 1 "saida" exdb_goal.transactions 0 31 = 50 := by
      simp +decide [month_total, exdb_goal, in_month]
    have hcur : goal_current 1 exdb_goal.transactions 0 31
        (month_total 1 "entrada" exdb_goal.transactions 0 31)
        (month_total 1 "saida" exdb_goal.transactions 0 31) goal_neg =
        month_total 1 "entrada" exdb_goal.transactions 0 31 -
          month_total 1 "saida" exdb_goal.transactions 0 31 := by
      rw [goal_current, if_neg (show ¬((goal_neg.type == "gasto_mensal") = true) from by decide),
        if_pos (show (goal_neg.type == "economia") = true from by decide)]
    rw [mk_goal_progress_percent, hcur, he, hs]
    norm_num [goal_neg, min_def]

/-- Witness for claim C4, exercising the claim's boundary example: in
`wdb` the active rule has limit 100 and warning threshold 0.80, the month
expense of its category is 80, and the status is `"yellow"` (warning). -/
theorem score_rule_classification_witness :
    item_w ∈ list_score 1 wdb 0 31 ∧ 0 < item_w.limit ∧
    item_w.spent = 80 ∧ item_w.status = "yellow" ∧
    (item_w.spent = category_month_spent 1 wdb.transactions 0 31 item_w.category.id ∧
      item_w.pct = item_w.spent / item_w.limit ∧
      item_w.remaining = item_w.limit - item_w.spent ∧
      (1 < item_w.pct → item_w.status = "red") ∧
      (item_w.pct ≤ 1 → item_w.rule.warning_pct ≤ item_w.pct → item_w.status = "yellow") ∧
      (item_w.pct ≤ 1 → item_w.pct < item_w.rule.warning_pct → item_w.status = "green")) := by
  have hmem : item_w ∈ list_score 1 wdb 0 31 := by
    simp +decide [list_score, wdb, item_w]
  have hL : (0 : Rat) < item_w.limit := by norm_num [item_w]
  have hsp : category_month_spent 1 wdb.transactions 0 31 1 = 80 := by
    simp +decide [category_month_spent, wdb, in_month]
  have hst : item_w.status = "yellow" := by
    rw [show item_w = mk_score_item (category_month_spent 1 wdb.transactions 0 31 1)
        { id := 1, user_id := 1, category_id := 1, monthly_limit := 100,
          warning_pct := 4 / 5, active := true }
        { id := 1, user_id := 1, name := "Alimentacao" } from rfl,
      mk_score_item_status, hsp]
    norm_num
  exact ⟨hmem, hL, by simpa [item_w] using hsp, hst,
    score_rule_classification 1 0 31 wdb item_w hmem hL⟩

/-- Counterexample to claim C1 as stated: in `exdb_score` user 1's score
listing returns a joined category row owned by user 2. -/
theorem score_listing_returns_foreign_category :
    ∃ it ∈ list_score 1 exdb_score 0 31, it.category.user_id ≠ 1 := by
  decide

/-- Counterexample to claim C9 as stated: user 1 of `exdb_seed` already
owns one (non-default) account, so the login repair does nothing and the
user still does not own the default account `Carteira` afterwards. -/
theorem seed_missing_defaults_not_repaired :
    ((seed_defaults_for_user 1 exdb_seed).accounts.any
      (fun a => a.user_id == 1 && a.name == "Carteira")) = false := by
  decide

/-- Claim C7: an uploaded CSV whose header lacks a required column among
date/description/type/amount — under any of the accepted case-insensitive
names — is rejected entirely: the database is unchanged, zero rows are
imported, and the error flash is raised. -/
theorem import_missing_required_rejected (uid : Nat) (db : DB) (headers : List String)
    (rows : List CsvRow) (h : lacks_required headers = true) :
    import_transactions uid db headers rows = (db, 0, 0, true) := by
  have hok : header_ok headers = false := by
    refine Bool.eq_false_iff.mpr fun hc => ?_
    rw [header_ok, required_columns] at hc
    rw [lacks_required] at h
    simp only [List.all_cons, List.all_nil, Bool.and_eq_true, List.any_eq_true, and_true,
      beq_iff_eq] at hc
    simp only [Bool.or_eq_true, List.all_eq_true, Bool.and_eq_true, Bool.not_eq_true'] at h
    rcases h with ((h | h) | h) | h
    · obtain ⟨x, hx, hxe⟩ := hc.1
      have hfalse := (h x hx).1
      rw [hxe] at hfalse
      simp at hfalse
    · obtain ⟨x, hx, hxe⟩ := hc.2.1
      have hfalse := (h x hx).1
      rw [hxe] at hfalse
      simp at hfalse
    · obtain ⟨x, hx, hxe⟩ := hc.2.2.1
      have hfalse := (h x hx).1
      rw [hxe] at hfalse
      simp at hfalse
    · obtain ⟨x, hx, hxe⟩ := hc.2.2.2
      have hfalse := (h x hx).1
      rw [hxe] at hfalse
      simp at hfalse
  simp only [import_transactions, hok, Bool.false_eq_true, if_false]

/-- Witness for claim C7: a header carrying only `Data`, `Tipo`, `Valor`
lacks the description column under both accepted names, and the import of
such a file into `wdb` leaves the state unchanged with the error flag. -/
theorem import_missing_required_rejected_witness :
    lacks_required ["Data", "Tipo", "Valor"] = true ∧
    import_transactions 1 wdb ["Data", "Tipo", "Valor"] [] = (wdb, 0, 0, true) :=
  ⟨by decide, import_missing_required_rejected 1 wdb ["Data", "Tipo", "Valor"] [] (by decide)⟩

/-- Claim C8: for an owned category (respectively account), deletion is
blocked — state unchanged, error flash — when some transaction of the
owner references it, and succeeds, removing the row, when no transaction
references it. -/
theorem delete_reference_check (uid cid aid : Nat) (db : DB)
    (hc : (db.categories.any (fun c => c.id == cid && c.user_id == uid)) = true)
    (ha : (db.accounts.any (fun a => a.id == aid && a.user_id == uid)) = true) :
    ((∃ t ∈ db.transactions, t.user_id = uid ∧ t.category_id = some cid) →
        delete_category uid cid db = (DeleteOutcome.blocked, db)) ∧
    ((∀ t ∈ db.transactions, t.category_id ≠ some cid) →
        delete_category uid cid db =
          (DeleteOutcome.deleted,
            { db with categories := db.categories.filter (fun c => !(c.id == cid)) })) ∧
    ((∃ t ∈ db.transactions, t.user_id = uid ∧ t.account_id = some aid) →
        delete_account uid aid db = (DeleteOutcome.blocked, db)) ∧
    ((∀ t ∈ db.transactions, t.account_id ≠ some aid) →
        delete_account uid aid db =
          (DeleteOutcome.deleted,
            { db with accounts := db.accounts.filter (fun a => !(a.id == aid)) })) := by
  obtain ⟨c0, hfc⟩ :
      ∃ c0, db.categories.find? (fun c => c.id == cid && c.user_id == uid) = some c0 := by
    cases hf : db.categories.find? (fun c => c.id == cid && c.user_id == uid) with
    | none =>
      obtain ⟨x, hx, hp⟩ := List.any_eq_true.mp hc
      exact absurd hp (List.find?_eq_none.mp hf x hx)
    | some c0 => exact ⟨c0, rfl⟩
  obtain ⟨a0, hfa⟩ :
      ∃ a0, db.accounts.find? (fun a => a.id == aid && a.user_id == uid) = some a0 := by
    cases hf : db.accounts.find? (fun a => a.id == aid && a.user_id == uid) with
    | none =>
      obtain ⟨x, hx, hp⟩ := List.any_eq_true.mp ha
      exact absurd hp (List.find?_eq_none.mp hf x hx)
    | some a0 => exact ⟨a0, rfl⟩
  refine ⟨?_, ?_, ?_, ?_⟩
  · rintro ⟨t, htm, htu, htc⟩
    have hany : db.transactions.any
        (fun t => t.user_id == uid && t.category_id == some cid) = true :=
      List.any_eq_true.mpr ⟨t, htm, by simp [htu, htc]⟩
    simp only [delete_category, hfc, hany, if_true]
  · intro hnone
    have hany : db.transactions.any
        (fun t => t.user_id == uid && t.category_id == some cid) = false := by
      refine Bool.eq_false_iff.mpr fun habs => ?_
      obtain ⟨t, htm, hp⟩ := List.any_eq_true.mp habs
      simp only [Bool.and_eq_true, beq_iff_eq] at hp
      exact hnone t htm hp.2
    simp only [delete_category, hfc, hany, Bool.false_eq_true, if_false]
  · rintro ⟨t, htm, htu, hta⟩
    have hany : db.transactions.any
        (fun t => t.user_id == uid && t.account_id == some aid) = true :=
      List.any_eq_true.mpr ⟨t, htm, by simp [htu, hta]⟩
    simp only [delete_account, hfa, hany, if_true]
  · intro hnone
    have hany : db.transactions.any
        (fun t => t.user_id == uid && t.account_id == some aid) = false := by
      refine Bool.eq_false_iff.mpr fun habs => ?_
      obtain ⟨t, htm, hp⟩ := List.any_eq_true.mp habs
      simp only [Bool.and_eq_true, beq_iff_eq] at hp
      exact hnone t htm hp.2
    simp only [delete_account, hfa, hany, Bool.false_eq_true, if_false]

/-- Witness for claim C8 at `wdb`: deleting category 1 and account 1 is
blocked (both are referenced by a transaction of user 1), while deleting
category 2 (unreferenced) removes exactly that row. -/
theorem delete_reference_check_witness :
    delete_category 1 1 wdb = (DeleteOutcome.blocked, wdb) ∧
    delete_account 1 1 wdb = (DeleteOutcome.blocked, wdb) ∧
    delete_category 1 2 wdb =
      (DeleteOutcome.deleted,
        { wdb with categories := wdb.categories.filter (fun c => !(c.id == 2)) }) :=
  ⟨(delete_reference_check 1 1 1 wdb (by decide) (by decide)).1 (by decide),
    (delete_reference_check 1 1 1 wdb (by decide) (by decide)).2.2.1 (by decide),
    (delete_reference_check 1 2 1 wdb (by decide) (by decide)).2.1 (by decide)⟩

/-- Claim C9 (amended): the login-time repair seeds the four default
accounts only for a user who owns no account at all; such a user owns
Carteira, Banco, Cartão and Reserva afterwards, and running the repair a
second time changes nothing.  (A user who already owns some account is
left untouched even when the defaults are missing.) -/
theorem seed_defaults_spec (uid : Nat) (db : DB)
    (h : (db.accounts.filter (fun a => a.user_id == uid)).length = 0) :
    (∀ nm ∈ ["Carteira", "Banco", "Cartão", "Reserva"],
        ∃ a ∈ (seed_defaults_for_user uid db).accounts, a.user_id = uid ∧ a.name = nm) ∧
    seed_defaults_for_user uid (seed_defaults_for_user uid db) =
      seed_defaults_for_user uid db := by
  have hfe : db.accounts.filter (fun a => a.user_id == uid) = [] :=
    List.length_eq_zero.mp h
  have hcond : ((db.accounts.filter (fun a => a.user_id == uid)).length == 0) = true := by
    simp [h]
  have hl : (default_accounts.enum.map (fun p =>
      ({ id := db.next_id + p.1, user_id := uid, name := p.2.1, type := p.2.2 } : Account))) =
      [{ id := db.next_id + 0, user_id := uid, name := "Carteira", type := "carteira" },
       { id := db.next_id + 1, user_id := uid, name := "Banco", type := "banco" },
       { id := db.next_id + 2, user_id := uid, name := "Cartão", type := "cartao" },
       { id := db.next_id + 3, user_id := uid, name := "Reserva", type := "reserva" }] := rfl
  have hseed : seed_defaults_for_user uid db =
      { db with
          accounts := db.accounts ++
            (default_accounts.enum.map (fun p =>
              { id := db.next_id + p.1, user_id := uid, name := p.2.1, type := p.2.2 })),
          next_id := db.next_id + default_accounts.length } := by
    rw [seed_defaults_for_user, if_pos hcond]
  constructor
  · intro nm hnm
    rw [hseed]
    simp only [List.mem_cons, List.not_mem_nil, or_false] at hnm
    rcases hnm with rfl | rfl | rfl | rfl
    · exact ⟨{ id := db.next_id + 0, user_id := uid, name := "Carteira", type := "carteira" },
        List.mem_append_right _ (by rw [hl]; simp), rfl, rfl⟩
    · exact ⟨{ id := db.next_id + 1, user_id := uid, name := "Banco", type := "banco" },
        List.mem_append_right _ (by rw [hl]; simp), rfl, rfl⟩
    · exact ⟨{ id := db.next_id + 2, user_id := uid, name := "Cartão", type := "cartao" },
        List.mem_append_right _ (by rw [hl]; simp), rfl, rfl⟩
    · exact ⟨{ id := db.next_id + 3, user_id := uid, name := "Reserva", type := "reserva" },
        List.mem_append_right _ (by rw [hl]; simp), rfl, rfl⟩
  · rw [hseed]
    rw [seed_defaults_for_user]
    have hflt : ((db.accounts ++
        (default_accounts.enum.map (fun p =>
          ({ id := db.next_id + p.1, user_id := uid, name := p.2.1, type := p.2.2 } :
            Account)))).filter (fun a => a.user_id == uid)).length = 4 := by
      rw [List.filter_append, hfe, hl]
      simp
    split
    · rename_i h4
      rw [hflt] at h4
      simp at h4
    · rfl

/-- The accumulation loop emits one entry per remaining day. -/
theorem line_chart_aux_length (txs : List Transaction) :
    ∀ (n d : Nat) (r : Rat), (line_chart_aux txs d n r).length = n := by
  intro n
  induction n with
  | zero => intro d r; rfl
  | succ m ih => intro d r; simp [line_chart_aux, ih]

/-- `getLast?` ignores the head when the tail is nonempty. -/
theorem getLast?_cons_of_ne_nil {α : Type} (a : α) {l : List α} (h : l ≠ []) :
    (a :: l).getLast? = l.getLast? := by
  cases l with
  | nil => exact absurd rfl h
  | cons b t => simp [List.getLast?_cons_cons]

/-- The last entry of the accumulation loop: the last remaining day paired
with the start balance plus all remaining daily deltas. -/
theorem line_chart_aux_getLast (txs : List Transaction) :
    ∀ (n d : Nat) (r : Rat), 0 < n →
      (line_chart_aux txs d n r).getLast? =
        some (d + n - 1,
          r + ((List.range n).map (fun k => daily_delta txs (d + k))).sum) := by
  intro n
  induction n with
  | zero => intro d r hpos; exact absurd hpos (lt_irrefl 0)
  | succ m ih =>
    intro d r _
    cases m with
    | zero =>
      simp [line_chart_aux, List.getLast?,
        show List.range 1 = [0] from rfl]
    | succ k =>
      have hne : line_chart_aux txs (d + 1) (k + 1) (r + daily_delta txs d) ≠ [] := by
        intro habs
        have hlen := line_chart_aux_length txs (k + 1) (d + 1) (r + daily_delta txs d)
        rw [habs] at hlen
        simp at hlen
      rw [show line_chart_aux txs d (k + 1 + 1) r =
          (d, r + daily_delta txs d) ::
            line_chart_aux txs (d + 1) (k + 1) (r + daily_delta txs d) from rfl]
      rw [getLast?_cons_of_ne_nil _ hne]
      rw [ih (d + 1) (r + daily_delta txs d) (Nat.succ_pos k)]
      have hfun : ((fun j => daily_delta txs (d + j)) ∘ Nat.succ) =
          (fun j => daily_delta txs ((d + 1) + j)) := by
        funext j
        simp only [Function.comp_apply]
        congr 1
        omega
      have hsum : ((List.range (k + 1 + 1)).map (fun j => daily_delta txs (d + j))).sum =
          daily_delta txs d +
            ((List.range (k + 1)).map (fun j => daily_delta txs ((d + 1) + j))).sum := by
        rw [List.range_succ_eq_map, List.map_cons, List.map_map, List.sum_cons, hfun]
        simp only [Nat.add_zero]
      simp only [Option.some.injEq, Prod.mk.injEq]
      refine ⟨by omega, ?_⟩
      rw [hsum]
      ring

/-- Pointwise sums distribute over a mapped list sum. -/
theorem sum_map_add (f g : Nat → Rat) : ∀ l : List Nat,
    (l.map (fun x => f x + g x)).sum = (l.map f).sum + (l.map g).sum := by
  intro l
  induction l with
  | nil => simp
  | cons a t ih =>
    simp only [List.map_cons, List.sum_cons, ih]
    ring

/-- Unfolding `daily_delta` over a cons cell. -/
theorem daily_delta_cons (t : Transaction) (ts : List Transaction) (d : Nat) :
    daily_delta (t :: ts) d =
      (if t.date = d then signed_amount t else 0) + daily_delta ts d := by
  by_cases h : t.date = d
  · simp [daily_delta, List.filter_cons, h]
  · simp [daily_delta, List.filter_cons, h]

/-- An indicator sum over a day range vanishes when the day is missed. -/
theorem sum_ind_zero (c : Rat) (x : Nat) (n lo : Nat) (h : ∀ k, k < n → x ≠ lo + k) :
    ((List.range n).map (fun k => if x = lo + k then c else 0)).sum = 0 := by
  apply List.sum_eq_zero
  intro y hy
  obtain ⟨k, hk, rfl⟩ := List.mem_map.mp hy
  rw [if_neg (h k (List.mem_range.mp hk))]

/-- An indicator sum over a day range containing the day is the value. -/
theorem sum_ind_single (c : Rat) (x : Nat) : ∀ (n lo : Nat), lo ≤ x → x < lo + n →
    ((List.range n).map (fun k => if x = lo + k then c else 0)).sum = c := by
  intro n
  induction n with
  | zero => intro lo h1 h2; omega
  | succ m ih =>
    intro lo h1 h2
    rw [List.range_succ, List.map_append, List.sum_append]
    by_cases hx : x = lo + m
    · rw [sum_ind_zero c x m lo (fun k hk => by omega)]
      simp [hx]
    · rw [ih lo h1 (by omega)]
      simp [hx]

/-- Summing the daily deltas over the whole month window recovers the
signed sum of the month transactions, as each of them falls on exactly
one day of the window. -/
theorem delta_sum_eq_signed (lo hi : Nat) : ∀ txs : List Transaction,
    (∀ t ∈ txs, lo ≤ t.date ∧ t.date < hi) →
    ((List.range (hi - lo)).map (fun k => daily_delta txs (lo + k))).sum =
      (txs.map signed_amount).sum := by
  intro txs
  induction txs with
  | nil =>
    intro _
    rw [show (fun k => daily_delta ([] : List Transaction) (lo + k)) =
        (fun _ => (0 : Rat)) from funext fun k => rfl]
    simp
  | cons t ts ih =>
    intro h
    have ht := h t (List.mem_cons_self t ts)
    have hts : ∀ u ∈ ts, lo ≤ u.date ∧ u.date < hi :=
      fun u hu => h u (List.mem_cons_of_mem t hu)
    rw [show (fun k => daily_delta (t :: ts) (lo + k)) =
        (fun k => (if t.date = lo + k then signed_amount t else 0) +
          daily_delta ts (lo + k)) from funext fun k => daily_delta_cons t ts (lo + k)]
    rw [sum_map_add]
    rw [sum_ind_single (signed_amount t) t.date (hi - lo) lo ht.1 (by omega)]
    rw [ih hts]
    simp

/-- Unfolding `tx_month` over a cons cell. -/
theorem tx_month_cons (uid lo hi : Nat) (t : Transaction) (ts : List Transaction) :
    tx_month uid (t :: ts) lo hi =
      if (t.user_id == uid && in_month lo hi t) = true then t :: tx_month uid ts lo hi
      else tx_month uid ts lo hi := by
  rw [tx_month, tx_month, List.filter_cons]

/-- Unfolding `month_total` over a cons cell. -/
theorem month_total_cons (uid : Nat) (ty : String) (lo hi : Nat) (t : Transaction)
    (ts : List Transaction) :
    month_total uid ty (t :: ts) lo hi =
      (if (t.user_id == uid && t.type == ty && in_month lo hi t) = true then t.amount
        else 0) + month_total uid ty ts lo hi := by
  rw [month_total, month_total, List.filter_cons]
  by_cases hp : (t.user_id == uid && t.type == ty && in_month lo hi t) = true
  · rw [if_pos hp, if_pos hp]
    simp
  · rw [if_neg hp, if_neg hp]
    simp

/-- The signed sum of the month transactions splits into month income
minus month expense once every transaction type is `entrada` or `saida`. -/
theorem month_split (uid lo hi : Nat) : ∀ txs : List Transaction,
    (∀ t ∈ txs, t.type = "entrada" ∨ t.type = "saida") →
    ((tx_month uid txs lo hi).map signed_amount).sum =
      month_total uid "entrada" txs lo hi - month_total uid "saida" txs lo hi := by
  intro txs
  induction txs with
  | nil =>
    intro _
    simp [tx_month, month_total]
  | cons t ts ih =>
    intro h
    have ht := h t (List.mem_cons_self t ts)
    have ihs := ih (fun u hu => h u (List.mem_cons_of_mem t hu))
    rw [tx_month_cons, month_total_cons, month_total_cons]
    by_cases hu : t.user_id = uid
    · by_cases hm : in_month lo hi t = true
      · rcases ht with he | hs
        · simp only [hu, hm, he, beq_self_eq_true, Bool.and_true, Bool.true_and, if_true,
            List.map_cons, List.sum_cons, signed_amount]
          have hne : (("entrada" : String) == "saida") = false := by decide
          simp only [hne, Bool.and_false, Bool.false_and]
          simp only [Bool.false_eq_true, if_false, if_true]
          rw [ihs]
          ring
        · simp only [hu, hm, hs, beq_self_eq_true, Bool.and_true, Bool.true_and, if_true,
            List.map_cons, List.sum_cons, signed_amount]
          have hne : (("saida" : String) == "entrada") = false := by decide
          simp only [hne, Bool.and_false, Bool.false_and]
          simp only [Bool.false_eq_true, if_false, if_true]
          rw [ihs]
          ring
      · have hm' : in_month lo hi t = false := Bool.eq_false_iff.mpr hm
        simp only [hm', Bool.and_false, Bool.false_eq_true, if_false]
        rw [ihs]
        ring
    · have hu' : (t.user_id == uid) = false := beq_eq_false_iff_ne.mpr hu
      simp only [hu', Bool.false_and, Bool.false_eq_true, if_false]
      rw [ihs]
      ring

/-- Claim C5: the daily running-balance series of the dashboard has one
entry per calendar day of the month window (length `hi - lo`, zero-delta
days included), and its last entry carries the month income minus the
month expense, provided every stored transaction type is `entrada` or
`saida` (the data-model enum). -/
theorem daily_balance_series (uid lo hi : Nat) (txs : List Transaction) (hlt : lo < hi)
    (hty : ∀ t ∈ txs, t.type = "entrada" ∨ t.type = "saida") :
    (line_chart (tx_month uid txs lo hi) lo hi).length = hi - lo ∧
    (line_chart (tx_month uid txs lo hi) lo hi).getLast? =
      some (hi - 1,
        month_total uid "entrada" txs lo hi - month_total uid "saida" txs lo hi) := by
  constructor
  · exact line_chart_aux_length _ _ _ _
  · rw [line_chart, line_chart_aux_getLast _ _ _ _ (by omega)]
    have hd : ∀ t ∈ tx_month uid txs lo hi, lo ≤ t.date ∧ t.date < hi := by
      intro t ht
      rw [tx_month] at ht
      have h2 := (List.mem_filter.mp ht).2
      simp only [Bool.and_eq_true, in_month, decide_eq_true_eq] at h2
      exact h2.2
    rw [delta_sum_eq_signed lo hi _ hd, month_split uid lo hi txs hty]
    simp only [Option.some.injEq, Prod.mk.injEq]
    exact ⟨by omega, by rw [zero_add]⟩

/-- Witness for claim C5: in `wdb` over the 31-day window the series has
31 entries and its last value is 100 - 80. -/
theorem daily_balance_series_witness :
    (0 < 31) ∧ (∀ t ∈ wdb.transactions, t.type = "entrada" ∨ t.type = "saida") ∧
    ((line_chart (tx_month 1 wdb.transactions 0 31) 0 31).length = 31 - 0 ∧
      (line_chart (tx_month 1 wdb.transactions 0 31) 0 31).getLast? =
        some (31 - 1,
          month_total 1 "entrada" wdb.transactions 0 31 -
            month_total 1 "saida" wdb.transactions 0 31)) :=
  ⟨by decide, by decide,
    daily_balance_series 1 0 31 wdb.transactions (by decide) (by decide)⟩

/-- Witness for claim C9: user 2 owns no account in `exdb_seed`; after the
repair they own the four defaults, and the repair is idempotent. -/
theorem seed_defaults_spec_witness :
    ((exdb_seed.accounts.filter (fun a => a.user_id == 2)).length = 0) ∧
    ((∀ nm ∈ ["Carteira", "Banco", "Cartão", "Reserva"],
        ∃ a ∈ (seed_defaults_for_user 2 exdb_seed).accounts, a.user_id = 2 ∧ a.name = nm) ∧
      seed_defaults_for_user 2 (seed_defaults_for_user 2 exdb_seed) =
        seed_defaults_for_user 2 exdb_seed) :=
  ⟨by decide, seed_defaults_spec 2 exdb_seed (by decide)⟩

end FinApp
